import Mathlib

set_option maxHeartbeats 1000000

/- Verification of the BrandSaaS name-generation pipeline (src/App.tsx).
   JavaScript strings are modelled as lists of characters (ASCII is the
   only character range the pipeline produces or consumes). -/

abbrev JStr := List Char

/-- Convert a Lean string literal to the character-list model. -/
def strL (s : String) : JStr := s.toList

/-- Domain availability status, the result type of checkDomainAvailability. -/
inductive DStatus where
  | available
  | taken
  | unknown
  deriving DecidableEq, Repr

/-- JavaScript String.split with a single-character separator.
    Splitting the empty string yields one empty field, as in JS. -/
def splitOnChar (sep : Char) : JStr → List JStr
  | [] => [[]]
  | c :: cs =>
    match splitOnChar sep cs with
    | [] => [[]]
    | h :: t => if c = sep then [] :: h :: t else (c :: h) :: t

/-- The static list of well-known registered domains (definitelyTaken in the source). -/
def definitelyTaken : List JStr :=
  ["google.com", "facebook.com", "amazon.com", "microsoft.com", "apple.com",
   "netflix.com", "twitter.com", "instagram.com", "linkedin.com", "youtube.com",
   "github.com", "stackoverflow.com", "reddit.com", "wikipedia.org", "wordpress.com",
   "shopify.com", "stripe.com", "slack.com", "zoom.com", "dropbox.com",
   "airbnb.com", "uber.com", "lyft.com", "spotify.com", "discord.com",
   "twitch.com", "tiktok.com", "snapchat.com", "pinterest.com", "whatsapp.com"].map strL

/-- Common short words presumed registered (commonWords in the source). -/
def commonWords : List JStr :=
  ["the", "and", "for", "you", "me", "my", "we", "us", "it", "is", "in", "on", "at",
   "to", "of", "a", "an", "com", "net", "org"].map strL

/-- The generic tech/business words of the .com regex in the source. -/
def genericComWords : List JStr :=
  ["cash", "flow", "hq", "pro", "app", "web", "tech", "data", "cloud", "team",
   "work", "home", "shop", "buy", "get", "go", "my", "me", "us", "we"].map strL

/-- Extensions the source treats as newer and presumed available. -/
def newerExts : List JStr := ["io", "co", "app", "dev", "tech", "ai", "me"].map strL

/-- The moderately conservative extensions of the source. -/
def netOrgExts : List JStr := ["net", "org"].map strL

/-- domain.toLowerCase() of the source. -/
def lowerDomain (d : JStr) : JStr := d.map Char.toLower

/-- domainName.split(sep)[0] of the source: the name portion before the first dot. -/
def namePart (dn : JStr) : JStr := (splitOnChar '.' dn).headD []

/-- domainName.split(sep).pop() of the source: the extension after the last dot. -/
def extPart (dn : JStr) : JStr := (splitOnChar '.' dn).getLastD []

/-- checkDomainAvailability from src/App.tsx: the heuristic availability estimator. -/
def checkDomainAvailability (domain : JStr) : DStatus :=
  let domainName := lowerDomain domain
  let domainWithoutExt := namePart domainName
  if domainName ∈ definitelyTaken then .taken
  else if domainWithoutExt.length ≤ 4 then .taken
  else if domainWithoutExt ∈ commonWords then .taken
  else
    let extension := extPart domainName
    if extension = strL "com" then
      if domainWithoutExt.length ≤ 6 ∨ domainWithoutExt.map Char.toLower ∈ genericComWords then
        .taken
      else .available
    else if extension ∈ newerExts then .available
    else if extension ∈ netOrgExts then
      if domainWithoutExt.length ≤ 5 then .taken else .available
    else .available

/- Specification side for claim C6: the section 4.1 decision procedure written as
   an explicit ordered rule list, evaluated top to bottom, first match winning. -/

/-- One rule of the cascade: a definitive status or no match. -/
abbrev EstimatorRule := JStr → Option DStatus

/-- Evaluate a rule list top to bottom, first match wins. -/
def firstMatch : List EstimatorRule → JStr → DStatus
  | [], _ => .unknown
  | r :: rs, d =>
    match r d with
    | some s => s
    | none => firstMatch rs d

/-- Rule 1: exact blocklist hit is taken. -/
def ruleBlocklist : EstimatorRule := fun d =>
  if lowerDomain d ∈ definitelyTaken then some .taken else none

/-- Rule 2: name portion of length at most 4 is taken. -/
def ruleShortName : EstimatorRule := fun d =>
  if (namePart (lowerDomain d)).length ≤ 4 then some .taken else none

/-- Rule 3: common stop word is taken. -/
def ruleStopWord : EstimatorRule := fun d =>
  if namePart (lowerDomain d) ∈ commonWords then some .taken else none

/-- Rule 4: for .com, short or generic names are taken, the rest available. -/
def ruleCom : EstimatorRule := fun d =>
  if extPart (lowerDomain d) = strL "com" then
    some (if (namePart (lowerDomain d)).length ≤ 6 ∨
             (namePart (lowerDomain d)).map Char.toLower ∈ genericComWords then
            DStatus.taken
          else DStatus.available)
  else none

/-- Rule 5: the newer extensions are available. -/
def ruleNewerExt : EstimatorRule := fun d =>
  if extPart (lowerDomain d) ∈ newerExts then some .available else none

/-- Rule 6: .net and .org are taken for names of length at most 5, else available. -/
def ruleNetOrg : EstimatorRule := fun d =>
  if extPart (lowerDomain d) ∈ netOrgExts then
    some (if (namePart (lowerDomain d)).length ≤ 5 then DStatus.taken else DStatus.available)
  else none

/-- Rule 7: every remaining extension is available. -/
def ruleOtherExt : EstimatorRule := fun _ => some .available

/-- The section 4.1 cascade as an ordered rule list. -/
def estimatorSpec (d : JStr) : DStatus :=
  firstMatch [ruleBlocklist, ruleShortName, ruleStopWord, ruleCom,
              ruleNewerExt, ruleNetOrg, ruleOtherExt] d

example : checkDomainAvailability (strL "wikipedia.org") = .taken := by decide
example : checkDomainAvailability (strL "cloudflow.com") = .available := by decide
example : checkDomainAvailability (strL "cloud.com") = .taken := by decide
example : checkDomainAvailability (strL "cloudy.org") = .available := by decide
example : checkDomainAvailability (strL "cloudy.xyz") = .available := by decide

/-- C6: the estimator equals the ordered rule cascade of section 4.1. -/
theorem C6_estimator_cascade : ∀ d : JStr, checkDomainAvailability d = estimatorSpec d := by
  intro d
  simp only [checkDomainAvailability, estimatorSpec, firstMatch, ruleBlocklist, ruleShortName,
    ruleStopWord, ruleCom, ruleNewerExt, ruleNetOrg, ruleOtherExt]
  split_ifs <;> simp_all

/- Name sanitizer (the per-line cleaning and filtering inside generateName). -/

/-- ASCII letter, the character class of the leading-strip regex. -/
def isAsciiLetter (c : Char) : Bool :=
  ('A' ≤ c && c ≤ 'Z') || ('a' ≤ c && c ≤ 'z')

/-- ASCII digit. -/
def isAsciiDigit (c : Char) : Bool := '0' ≤ c && c ≤ '9'

/-- JavaScript whitespace, restricted to the ASCII range the pipeline deals in. -/
def isJsSpace (c : Char) : Bool :=
  c = ' ' || c = '\t' || c = '\n' || c = '\x0d' || c = '\x0b' || c = '\x0c'

/-- Characters kept by the trailing-strip regex: letters, digits, whitespace, hyphen. -/
def isTrailKeep (c : Char) : Bool :=
  isAsciiLetter c || isAsciiDigit c || isJsSpace c || c = '-'

/-- Remove the longest run of characters satisfying p from the end of the list. -/
def dropTrailingWhile (p : Char → Bool) (l : JStr) : JStr :=
  (l.reverse.dropWhile p).reverse

/-- JavaScript String.trim over the ASCII range. -/
def trimJs (l : JStr) : JStr :=
  dropTrailingWhile isJsSpace (l.dropWhile isJsSpace)

/-- The denylist of generic and meta words (unwantedWords in the source). -/
def unwantedWords : List JStr :=
  ["here", "suggest", "example", "name", "names", "business", "company",
   "saas", "startup"].map strL

/-- The per-line cleaning chain of generateName: strip leading non-letters, strip
    trailing characters outside letters, digits, whitespace and hyphen, trim,
    keep only up to the first line break, keep only up to the first period, trim. -/
def cleanLine (l : JStr) : JStr :=
  let s1 := l.dropWhile (fun c => !(isAsciiLetter c))
  let s2 := dropTrailingWhile (fun c => !(isTrailKeep c)) s1
  let s3 := trimJs s2
  let s4 := s3.takeWhile (fun c => c ≠ '\n')
  let s5 := s4.takeWhile (fun c => c ≠ '.')
  trimJs s5

/-- True when the cleaned name equals a denylist word case-insensitively. -/
def denylistHit (c : JStr) : Bool :=
  unwantedWords.any (fun w => c.map Char.toLower == w)

/-- Primary-round sanitizer: clean the line, reject on length over 30, length
    under 2, or a denylist hit. -/
def sanitizePrimaryLine (l : JStr) : Option JStr :=
  let c := cleanLine l
  if c.length > 30 || c.length < 2 || denylistHit c then none else some c

/-- Fallback-round sanitizer: identical cleaning, but the filter checks only the
    two length bounds (the source omits the denylist in the fallback loop). -/
def sanitizeFallbackLine (l : JStr) : Option JStr :=
  let c := cleanLine l
  if c.length > 30 || c.length < 2 then none else some c

/- Multi-extension prober. -/

/-- The fixed ordered extension set of checkMultipleDomains. -/
def extensionsList : List JStr :=
  [".com", ".net", ".org", ".io", ".co", ".app", ".dev", ".tech", ".ai", ".me"].map strL

/-- name.toLowerCase().replace of all characters outside lowercase letters and digits. -/
def normalizeName (name : JStr) : JStr :=
  (name.map Char.toLower).filter (fun c => ('a' ≤ c && c ≤ 'z') || isAsciiDigit c)

/-- checkMultipleDomains from the source: probe every configured extension in
    order; the estimator is total, so the catch branch never fires. -/
def checkMultipleDomains (name : JStr) : List (JStr × DStatus) :=
  extensionsList.map (fun ext => (ext, checkDomainAvailability (normalizeName name ++ ext)))

example : (checkMultipleDomains (strL "CloudFlow")).length = 10 := by decide
example : sanitizePrimaryLine (strL "here") = none := by decide
example : sanitizeFallbackLine (strL "here") = some (strL "here") := by decide
example : sanitizePrimaryLine (strL "1. CloudFlow!!") = some (strL "CloudFlow") := by decide
example : sanitizePrimaryLine (strL "x") = none := by decide

/- Generation pipeline orchestrator (generateName in the source). The external
   service calls are modelled by their outcomes: an Except value is either the
   raw response text or a thrown error. -/

/-- A freshly generated candidate as far as the pipeline computes it: cleaned
    name plus probed domain map (id, category and timestamp come from the
    impure environment and do not influence control flow). -/
structure GenCandidate where
  name : JStr
  domains : List (JStr × DStatus)
  deriving DecidableEq, Repr

/-- Assemble a candidate record from a surviving cleaned name. -/
def mkCandidate (n : JStr) : GenCandidate :=
  { name := n, domains := checkMultipleDomains n }

/-- response.split by newline, keep non-blank lines, take at most 5. -/
def responseLines (resp : JStr) : List JStr :=
  ((splitOnChar '\n' resp).filter (fun l => (trimJs l).length > 0)).take 5

/-- The candidates surviving the primary round for a given raw response. -/
def primaryBatch (resp : JStr) : List GenCandidate :=
  (responseLines resp).filterMap (fun l => (sanitizePrimaryLine l).map mkCandidate)

/-- The candidates surviving the fallback round for a given raw response. -/
def fallbackBatch (resp : JStr) : List GenCandidate :=
  (responseLines resp).filterMap (fun l => (sanitizeFallbackLine l).map mkCandidate)

deriving instance DecidableEq for Except

/-- Outcome of one generateName invocation: the committed batch or the caught
    error, together with the number of generation-service calls made. -/
structure GenResult where
  result : Except String (List GenCandidate)
  calls : Nat
  deriving DecidableEq, Repr

/-- generateName from the source, over the outcomes of the primary and fallback
    service calls. A thrown call lands in the single catch block: nothing is
    committed and the error surfaces. When fewer than 3 primary candidates
    survive, exactly one fallback call is made and its batch is appended. -/
def generateNameRun (primary fallback : Except String JStr) : GenResult :=
  match primary with
  | .error e => { result := .error e, calls := 1 }
  | .ok resp =>
    let batch := primaryBatch resp
    if batch.length < 3 then
      match fallback with
      | .error e => { result := .error e, calls := 2 }
      | .ok fresp => { result := .ok (batch ++ fallbackBatch fresp), calls := 2 }
    else { result := .ok batch, calls := 1 }

/- History merger (the setAppState call at the end of generateName). -/

/-- Merge a new batch into the existing history: prepend and keep the first 20. -/
def mergeHistory (batch history : List GenCandidate) : List GenCandidate :=
  (batch ++ history).take 20

example : (primaryBatch (strL "CloudFlow\nDataSync\nTeamHub\nhere\nx")).length = 3 := by decide
example : (primaryBatch (strL "CloudFlow\nDataSync")).length = 2 := by decide
example : (generateNameRun (.ok (strL "CloudFlow\nDataSync")) (.error "network")).result
    = .error "network" := by decide
example : (generateNameRun (.ok (strL "CloudFlow\nDataSync\nTeamHub")) (.error "network")).calls
    = 1 := by decide

/-- A concrete candidate used in several concrete instantiations. -/
def candA : GenCandidate := mkCandidate (strL "CloudFlow")

/-- C8: merging prepends the new batch and truncates to the first 20 entries;
    merging 5 new candidates into an 18-entry history yields exactly 20 entries
    with the new batch first and the 3 oldest prior entries dropped. -/
theorem C8_history_merge :
    (∀ batch history : List GenCandidate,
      mergeHistory batch history = (batch ++ history).take 20)
    ∧ (∀ batch history : List GenCandidate, batch.length = 5 → history.length = 18 →
        (mergeHistory batch history).length = 20
        ∧ mergeHistory batch history = batch ++ history.take 15) := by
  refine ⟨fun batch history => rfl, fun batch history hb hh => ⟨?_, ?_⟩⟩
  · simp [mergeHistory, hb, hh]
  · rw [mergeHistory, List.take_append_eq_append_take, hb,
      List.take_of_length_le (by omega)]

/-- Witness for C8 at a concrete 5-element batch and 18-entry history. -/
theorem C8_history_merge_witness :
    (mergeHistory (List.replicate 5 candA) (List.replicate 18 candA)).length = 20
    ∧ mergeHistory (List.replicate 5 candA) (List.replicate 18 candA)
      = List.replicate 5 candA ++ (List.replicate 18 candA).take 15 :=
  C8_history_merge.2 (List.replicate 5 candA) (List.replicate 18 candA)
    (by simp) (by simp)

/-- C5: with a successful primary round, the orchestrator makes a total of two
    service calls (one fallback call) exactly when fewer than 3 candidates
    survive the primary sanitization, one call when at least 3 survive, and
    never more than two calls in any run (the fallback never recurses). -/
theorem C5_threshold_fallback :
    (∀ (resp : JStr) (fb : Except String JStr),
      (generateNameRun (.ok resp) fb).calls = 2 ↔ (primaryBatch resp).length < 3)
    ∧ (∀ (resp : JStr) (fb : Except String JStr), 3 ≤ (primaryBatch resp).length →
        (generateNameRun (.ok resp) fb).calls = 1)
    ∧ (∀ (p fb : Except String JStr), (generateNameRun p fb).calls ≤ 2) := by
  refine ⟨fun resp fb => ?_, fun resp fb h3 => ?_, fun p fb => ?_⟩
  · by_cases h : (primaryBatch resp).length < 3
    · cases fb <;> simp [generateNameRun, h]
    · simp [generateNameRun, h]
  · have h : ¬ (primaryBatch resp).length < 3 := by omega
    simp [generateNameRun, h]
  · cases p with
    | error e => simp [generateNameRun]
    | ok resp =>
      by_cases h : (primaryBatch resp).length < 3
      · cases fb <;> simp [generateNameRun, h]
      · simp [generateNameRun, h]

/-- Witness for C5 with a primary response that yields 3 candidates. -/
theorem C5_threshold_fallback_witness :
    (generateNameRun (.ok (strL "CloudFlow\nDataSync\nTeamHub")) (.error "network")).calls = 1 :=
  C5_threshold_fallback.2.1 _ _ (by decide)

/-- C2 fails on the code: with a primary batch of 2 candidates and a failing
    fallback call, generateName lands in its catch block, reports the error and
    commits nothing, instead of returning the primary candidates. -/
theorem C2_counterexample :
    (primaryBatch (strL "CloudFlow\nDataSync")).length = 2
    ∧ (generateNameRun (.ok (strL "CloudFlow\nDataSync")) (.error "network")).result
        = .error "network"
    ∧ (generateNameRun (.ok (strL "CloudFlow\nDataSync")) (.error "network")).result
        ≠ .ok (primaryBatch (strL "CloudFlow\nDataSync")) :=
  ⟨by decide, by decide, by decide⟩

/-- C2 amended: when fewer than 3 primary candidates survive and the fallback
    service call fails, the whole generation attempt fails: the error surfaces
    to the caller and no candidates, the primary ones included, are committed. -/
theorem C2_fallback_failure_propagates :
    ∀ (resp : JStr) (e : String), (primaryBatch resp).length < 3 →
      (generateNameRun (.ok resp) (.error e)).result = .error e := by
  intro resp e h
  simp [generateNameRun, h]

/-- Witness for the amended C2 at a concrete two-candidate primary response. -/
theorem C2_fallback_failure_propagates_witness :
    (generateNameRun (.ok (strL "CloudFlow\nDataSync")) (.error "offline")).result
      = .error "offline" :=
  C2_fallback_failure_propagates (strL "CloudFlow\nDataSync") "offline" (by decide)

/- Helper lemmas about the cleaning chain and the denylist. -/

lemma dropTrailingWhile_length_le (p : Char → Bool) (l : JStr) :
    (dropTrailingWhile p l).length ≤ l.length := by
  simpa [dropTrailingWhile] using (List.dropWhile_sublist (l := l.reverse) p).length_le

lemma trimJs_length_le (l : JStr) : (trimJs l).length ≤ l.length :=
  le_trans (dropTrailingWhile_length_le _ _) ((List.dropWhile_sublist _).length_le)

lemma cleanLine_length_le (l : JStr) : (cleanLine l).length ≤ l.length := by
  simp only [cleanLine]
  refine le_trans (trimJs_length_le _) ?_
  refine le_trans (List.takeWhile_sublist _).length_le ?_
  refine le_trans (List.takeWhile_sublist _).length_le ?_
  refine le_trans (trimJs_length_le _) ?_
  refine le_trans (dropTrailingWhile_length_le _ _) ?_
  exact (List.dropWhile_sublist _).length_le

lemma denylistHit_false_of_length (c : JStr) (h : c.length < 4 ∨ 8 < c.length) :
    denylistHit c = false := by
  have hrange : ∀ w ∈ unwantedWords, 4 ≤ w.length ∧ w.length ≤ 8 := by decide
  rw [denylistHit, List.any_eq_false]
  intro w hw heq
  rw [beq_iff_eq] at heq
  have hl := congrArg List.length heq
  rw [List.length_map] at hl
  have hr := hrange w hw
  omega

/-- C7: on already-clean lines the sanitizer accepts at exactly the documented
    boundary: length 30 accepted, length 31 rejected, a single character
    rejected, and two letters accepted. -/
theorem C7_sanitizer_boundary :
    (∀ s : JStr, cleanLine s = s → s.length = 30 → sanitizePrimaryLine s = some s)
    ∧ (∀ s : JStr, cleanLine s = s → s.length = 31 → sanitizePrimaryLine s = none)
    ∧ (∀ s : JStr, s.length = 1 → sanitizePrimaryLine s = none)
    ∧ (∀ a b : Char, isAsciiLetter a → isAsciiLetter b → cleanLine [a, b] = [a, b] →
        sanitizePrimaryLine [a, b] = some [a, b]) := by
  refine ⟨fun s hc h30 => ?_, fun s hc h31 => ?_, fun s h1 => ?_, fun a b ha hb hc => ?_⟩
  · have hd := denylistHit_false_of_length s (Or.inr (by omega))
    simp [sanitizePrimaryLine, hc, h30, hd]
  · simp [sanitizePrimaryLine, hc, h31]
  · have hlen : (cleanLine s).length ≤ 1 := h1 ▸ cleanLine_length_le s
    have hlt : (cleanLine s).length < 2 := by omega
    simp [sanitizePrimaryLine, hlt]
  · have hd := denylistHit_false_of_length [a, b] (Or.inl (by simp))
    simp [sanitizePrimaryLine, hc, hd]

/-- Witness for C7 at concrete clean lines of lengths 30, 31, 1 and 2. -/
theorem C7_sanitizer_boundary_witness :
    sanitizePrimaryLine (strL "ABCDEFGHIJKLMNOPQRSTUVWXYZabcd")
      = some (strL "ABCDEFGHIJKLMNOPQRSTUVWXYZabcd")
    ∧ sanitizePrimaryLine (strL "ABCDEFGHIJKLMNOPQRSTUVWXYZabcde") = none
    ∧ sanitizePrimaryLine (strL "x") = none
    ∧ sanitizePrimaryLine (strL "ab") = some (strL "ab") :=
  ⟨C7_sanitizer_boundary.1 _ (by decide) (by decide),
   C7_sanitizer_boundary.2.1 _ (by decide) (by decide),
   C7_sanitizer_boundary.2.2.1 _ (by decide),
   C7_sanitizer_boundary.2.2.2 'a' 'b' (by decide) (by decide) (by decide)⟩

/-- C3 fails on the code: the fallback loop omits the denylist filter, so the
    fallback line "here" yields a candidate while the primary round rejects it. -/
theorem C3_counterexample :
    sanitizeFallbackLine (strL "here") = some (strL "here")
    ∧ sanitizePrimaryLine (strL "here") = none :=
  ⟨by decide, by decide⟩

/-- C3 amended: the fallback round cleans each line exactly like the primary
    round and applies the two length bounds, but not the denylist: every
    primary-accepted line is fallback-accepted unchanged, and every
    fallback-accepted line is either primary-accepted or a denylist hit. -/
theorem C3_fallback_sanitizer :
    (∀ l c : JStr, sanitizePrimaryLine l = some c → sanitizeFallbackLine l = some c)
    ∧ (∀ l c : JStr, sanitizeFallbackLine l = some c →
        sanitizePrimaryLine l = some c ∨ denylistHit c = true) := by
  constructor
  · intro l c h
    by_cases h30 : (cleanLine l).length > 30 <;>
    by_cases h2 : (cleanLine l).length < 2 <;>
    by_cases hd : denylistHit (cleanLine l) <;>
    simp_all [sanitizePrimaryLine, sanitizeFallbackLine]
  · intro l c h
    by_cases h30 : (cleanLine l).length > 30 <;>
    by_cases h2 : (cleanLine l).length < 2 <;>
    by_cases hd : denylistHit (cleanLine l) <;>
    simp_all [sanitizePrimaryLine, sanitizeFallbackLine]

/-- Witness for the amended C3: a primary-accepted line is fallback-accepted. -/
theorem C3_fallback_sanitizer_witness :
    sanitizeFallbackLine (strL "CloudFlow") = some (strL "CloudFlow") :=
  C3_fallback_sanitizer.1 (strL "CloudFlow") (strL "CloudFlow") (by decide)

/- Candidate lifecycle state and the toggle/archive/restore handlers. -/

/-- A stored candidate record (the GeneratedName interface of the source). -/
structure GeneratedName where
  id : String
  name : String
  category : String
  timestamp : Nat
  isFavorite : Bool
  rating : Nat
  ratingComment : String
  domains : List (JStr × DStatus)
  deriving DecidableEq, Repr

/-- The caller-owned application state (the AppState interface of the source). -/
structure AppStateT where
  generatedNames : List GeneratedName
  favorites : List String
  archivedNames : List GeneratedName
  darkMode : Bool
  deriving DecidableEq, Repr

/-- toggleFavorite from the source: flip the flag of the matching active
    candidate and recompute the favorites id list from the updated flags. -/
def toggleFavorite (st : AppStateT) (nameId : String) : AppStateT :=
  let updated := st.generatedNames.map (fun n =>
    if n.id = nameId then { n with isFavorite := !n.isFavorite } else n)
  { st with generatedNames := updated,
            favorites := (updated.filter (fun n => n.isFavorite)).map (fun n => n.id) }

/-- archiveName from the source on well-formed inputs: drop the candidate from
    the active collection and append the found record to the archived one. The
    raw JS append of undefined at an absent id is modelled by archiveNameJS. -/
def archiveName (st : AppStateT) (nameId : String) : AppStateT :=
  { st with generatedNames := st.generatedNames.filter (fun n => n.id != nameId),
            archivedNames := st.archivedNames
              ++ (st.generatedNames.find? (fun n => n.id == nameId)).toList }

/-- restoreName from the source: move the found archived candidate back to the
    active collection; a miss leaves the state unchanged (the if guard). -/
def restoreName (st : AppStateT) (nameId : String) : AppStateT :=
  match st.archivedNames.find? (fun n => n.id == nameId) with
  | some archived =>
    { st with archivedNames := st.archivedNames.filter (fun n => n.id != nameId),
              generatedNames := st.generatedNames ++ [archived] }
  | none => st

/-- The favorites list is exactly the ids of favorited active candidates. -/
def favoritesInvariant (st : AppStateT) : Prop :=
  st.favorites = (st.generatedNames.filter (fun n => n.isFavorite)).map (fun n => n.id)

instance (st : AppStateT) : Decidable (favoritesInvariant st) :=
  inferInstanceAs (Decidable
    (st.favorites = (st.generatedNames.filter (fun n => n.isFavorite)).map (fun n => n.id)))

/-- A favorited active candidate. -/
def cand0 : GeneratedName :=
  { id := "id1", name := "CloudFlow", category := "Technology", timestamp := 0,
    isFavorite := true, rating := 0, ratingComment := "", domains := [(strL ".com", .taken)] }

/-- A state satisfying the favorites invariant, with cand0 active and favorited. -/
def st0 : AppStateT :=
  { generatedNames := [cand0], favorites := ["id1"], archivedNames := [], darkMode := false }

/-- C4 fails on the code: archiving a favorited candidate leaves its id in the
    favorites list although the candidate is no longer active, so favorites is
    not recomputed by every lifecycle operation. -/
theorem C4_counterexample :
    favoritesInvariant st0 ∧ ¬ favoritesInvariant (archiveName st0 "id1") :=
  ⟨by decide, by decide⟩

/-- C4 amended: toggleFavorite recomputes the favorites index from the updated
    flags and so always re-establishes the invariant, but archiveName and
    restoreName leave the favorites list untouched, which is why archiving a
    favorited candidate can break it. -/
theorem C4_favorites_derived :
    (∀ (st : AppStateT) (nameId : String), favoritesInvariant (toggleFavorite st nameId))
    ∧ (∀ (st : AppStateT) (nameId : String), (archiveName st nameId).favorites = st.favorites)
    ∧ (∀ (st : AppStateT) (nameId : String), (restoreName st nameId).favorites = st.favorites) := by
  refine ⟨fun st nameId => rfl, fun st nameId => rfl, fun st nameId => ?_⟩
  simp only [restoreName]
  split <;> rfl

/-- archiveName exactly as the JS executes it: the entry appended to the
    archived collection is the raw find? result, undefined (none) when the id
    names no active candidate. -/
def archiveNameJS (st : AppStateT) (nameId : String) :
    List GeneratedName × List (Option GeneratedName) :=
  (st.generatedNames.filter (fun n => n.id != nameId),
   st.archivedNames.map some ++ [st.generatedNames.find? (fun n => n.id == nameId)])

/-- C10: for an id absent from the active collection the active list is left
    unchanged and a non-candidate (undefined) entry is appended to the archived
    collection; when the id is present the appended entry is a real candidate. -/
theorem C10_archive_precondition :
    (∀ (st : AppStateT) (nameId : String), (∀ c ∈ st.generatedNames, c.id ≠ nameId) →
      (archiveNameJS st nameId).1 = st.generatedNames
      ∧ (archiveNameJS st nameId).2 = st.archivedNames.map some ++ [none])
    ∧ (∀ (st : AppStateT) (nameId : String), (∃ c ∈ st.generatedNames, c.id = nameId) →
      ∃ c : GeneratedName,
        (archiveNameJS st nameId).2 = st.archivedNames.map some ++ [some c]) := by
  constructor
  · intro st nameId h
    constructor
    · apply List.filter_eq_self.mpr
      intro c hc
      simpa using h c hc
    · have hf : st.generatedNames.find? (fun n => n.id == nameId) = none := by
        apply List.find?_eq_none.mpr
        intro c hc
        simpa using h c hc
      simp [archiveNameJS, hf]
  · intro st nameId h
    obtain ⟨c, hc, hid⟩ := h
    have hf : (st.generatedNames.find? (fun n => n.id == nameId)).isSome := by
      apply List.find?_isSome.mpr
      exact ⟨c, hc, by simp [hid]⟩
    obtain ⟨c2, hc2⟩ := Option.isSome_iff_exists.mp hf
    exact ⟨c2, by simp [archiveNameJS, hc2]⟩

/-- Witness for C10 at a concrete state, with an absent and a present id. -/
theorem C10_archive_precondition_witness :
    ((archiveNameJS st0 "zzz").1 = st0.generatedNames
      ∧ (archiveNameJS st0 "zzz").2 = st0.archivedNames.map some ++ [none])
    ∧ ∃ c : GeneratedName,
        (archiveNameJS st0 "id1").2 = st0.archivedNames.map some ++ [some c] :=
  ⟨C10_archive_precondition.1 st0 "zzz" (by decide),
   C10_archive_precondition.2 st0 "id1" ⟨cand0, by decide, by decide⟩⟩

/- JSON-level model for state loading (the useState initializer and the load
   useEffect) and the legacy migration (migrateOldData). -/

/-- Parsed JSON values plus Date objects, the runtime values the load path
    manipulates. A Date remembers the value it was constructed from; a Date
    built from an undefined field records null. -/
inductive Json where
  | null
  | bool (b : Bool)
  | num (n : Int)
  | str (s : String)
  | arr (xs : List Json)
  | obj (kvs : List (String × Json))
  | date (v : Json)

/-- JavaScript truthiness of a value. -/
def truthy : Json → Bool
  | .null => false
  | .bool b => b
  | .num n => n != 0
  | .str s => s != ""
  | .arr _ => true
  | .obj _ => true
  | .date _ => true

/-- Truthiness of an optional field value: undefined is falsy. -/
def truthyOpt : Option Json → Bool
  | none => false
  | some j => truthy j

/-- First binding of a key in an object body. -/
def getKv : List (String × Json) → String → Option Json
  | [], _ => none
  | (k, v) :: rest, key => if k = key then some v else getKv rest key

/-- Replace the first binding of a key in place, or append it: the semantics of
    a spread followed by an explicit property in a JS object literal. -/
def setKv : List (String × Json) → String → Json → List (String × Json)
  | [], key, val => [(key, val)]
  | (k, v) :: rest, key, val =>
    if k = key then (k, val) :: rest else (k, v) :: setKv rest key val

/-- JavaScript property access: throws on null, looks up own properties of
    objects, and yields undefined (none) for the named fields the load path
    reads on every other value. -/
def jsGetProp : Json → String → Except String (Option Json)
  | .null, _ => .error "TypeError: cannot read properties of null"
  | .obj kvs, key => .ok (getKv kvs key)
  | _, _ => .ok none

/-- Own enumerable properties taken by an object spread: objects spread their
    fields, arrays and strings spread index properties, primitives nothing. -/
def spreadFields : Json → List (String × Json)
  | .obj kvs => kvs
  | .arr xs => xs.enum.map (fun p => (toString p.1, p.2))
  | .str s => s.toList.enum.map (fun p => (toString p.1, Json.str (String.mk [p.2])))
  | _ => []

/-- The JavaScript or-else expression over an optional field value: undefined
    and falsy values fall back to the default. -/
def jsOrDefault (v : Option Json) (d : Json) : Json :=
  match v with
  | none => d
  | some j => if truthy j then j else d

/-- One element of migrateOldData from the source: a record with a truthy
    domains field only gets rating and ratingComment defaults filled in; any
    other record additionally receives a domains map built from the legacy
    domainStatus field. Property access on a null element throws. -/
def migrateOne (j : Json) : Except String Json := do
  let domainsField ← jsGetProp j "domains"
  let ratingField ← jsGetProp j "rating"
  let commentField ← jsGetProp j "ratingComment"
  let base := spreadFields j
  if truthyOpt domainsField then
    .ok (.obj (setKv (setKv base "rating" (jsOrDefault ratingField (.num 0)))
      "ratingComment" (jsOrDefault commentField (.str ""))))
  else do
    let statusField ← jsGetProp j "domainStatus"
    .ok (.obj (setKv (setKv (setKv base "rating" (jsOrDefault ratingField (.num 0)))
      "ratingComment" (jsOrDefault commentField (.str "")))
      "domains" (.obj [(".com", jsOrDefault statusField (.str "unknown"))])))

/-- migrateOldData from the source over a parsed value: arrays are mapped
    elementwise with a throw inside the map propagating; every non-array value
    has no map method and throws. -/
def migrateOldDataJ : Json → Except String (List Json)
  | .arr xs => xs.mapM migrateOne
  | _ => .error "TypeError: names.map is not a function"

/-- The runtime shape of the loaded state as the two load paths build it. -/
structure AppStateJ where
  generatedNames : List Json
  favorites : Json
  archivedNames : Json
  darkMode : Json

/-- The empty state both load paths are meant to fall back to. -/
def emptyAppJ : AppStateJ :=
  { generatedNames := [], favorites := .arr [], archivedNames := .arr [],
    darkMode := .bool false }

/-- The per-record map of the useState initializer: spread the record and
    replace timestamp by a Date built from the stored timestamp value. -/
def convertTimestamp (j : Json) : Except String Json := do
  let ts ← jsGetProp j "timestamp"
  .ok (.obj (setKv (spreadFields j) "timestamp"
    (.date (match ts with | some v => v | none => .null))))

/-- The optionally-chained map over parsed.generatedNames in the initializer:
    null or undefined short-circuits into the empty default, an array is
    mapped, and every other value has no map method and throws. -/
def decodeNamesInit : Option Json → Except String (List Json)
  | none => .ok []
  | some .null => .ok []
  | some (.arr xs) => xs.mapM convertTimestamp
  | some _ => .error "TypeError: map is not a function"

/-- The useState initializer of the source, over the outcome of JSON.parse.
    There is no try/catch here: a parse throw or a property-access throw
    escapes to the caller, crashing the component render. -/
def useStateInit (parse : String → Except String Json) (saved : Option String) :
    Except String AppStateJ :=
  match saved with
  | none => .ok emptyAppJ
  | some s =>
    if s = "" then .ok emptyAppJ
    else do
      let parsed ← parse s
      let gnf ← jsGetProp parsed "generatedNames"
      let gn ← decodeNamesInit gnf
      let favf ← jsGetProp parsed "favorites"
      let arf ← jsGetProp parsed "archivedNames"
      let dmf ← jsGetProp parsed "darkMode"
      .ok { generatedNames := gn,
            favorites := jsOrDefault favf (.arr []),
            archivedNames := jsOrDefault arf (.arr []),
            darkMode := jsOrDefault dmf (.bool false) }

/-- Body of the load useEffect: parse, migrate both collections, apply the
    or-else defaults. Every throw inside is caught by loadEffect. -/
def loadEffectBody (parse : String → Except String Json) (s : String) :
    Except String AppStateJ := do
  let parsed ← parse s
  let gnf ← jsGetProp parsed "generatedNames"
  let gn ← migrateOldDataJ (jsOrDefault gnf (.arr []))
  let favf ← jsGetProp parsed "favorites"
  let arf ← jsGetProp parsed "archivedNames"
  let ar ← migrateOldDataJ (jsOrDefault arf (.arr []))
  let dmf ← jsGetProp parsed "darkMode"
  .ok { generatedNames := gn,
        favorites := jsOrDefault favf (.arr []),
        archivedNames := .arr ar,
        darkMode := jsOrDefault dmf (.bool false) }

/-- The load useEffect of the source: a missing stored value keeps the current
    state; otherwise the try/catch either installs the decoded state or, on
    any throw, discards the stored data and installs the empty state. -/
def loadEffect (parse : String → Except String Json) (saved : Option String)
    (cur : AppStateJ) : AppStateJ :=
  match saved with
  | none => cur
  | some s =>
    if s = "" then cur
    else
      match loadEffectBody parse s with
      | .ok st => st
      | .error _ => emptyAppJ

/-- C1 fails on the code: the useState initializer parses the stored string
    with no try/catch, so a JSON.parse throw on a malformed stored state
    escapes and crashes the render instead of being discarded; only the
    separate load effect catches the throw and installs the empty state. -/
theorem C1_load_crash :
    (∀ (parse : String → Except String Json) (s e : String), s ≠ "" →
      parse s = .error e → useStateInit parse (some s) = .error e)
    ∧ (∀ (parse : String → Except String Json) (s e : String) (cur : AppStateJ),
      s ≠ "" → parse s = .error e → loadEffect parse (some s) cur = emptyAppJ) := by
  constructor
  · intro parse s e hs hp
    simp [useStateInit, hs, hp, Bind.bind, Except.bind]
  · intro parse s e cur hs hp
    simp [loadEffect, loadEffectBody, hs, hp, Bind.bind, Except.bind]

/-- JSON.parse over a malformed input, modelled by its thrown outcome. -/
def parseFailing : String → Except String Json := fun _ => .error "SyntaxError"

/-- Witness for C1 at a concrete malformed stored string. -/
theorem C1_load_crash_witness :
    useStateInit parseFailing (some "not json") = .error "SyntaxError"
    ∧ loadEffect parseFailing (some "not json") emptyAppJ = emptyAppJ :=
  ⟨C1_load_crash.1 parseFailing "not json" "SyntaxError" (by decide) rfl,
   C1_load_crash.2 parseFailing "not json" "SyntaxError" emptyAppJ (by decide) rfl⟩

/- Association-list lemmas for the migration proofs. -/

lemma getKv_setKv_self (l : List (String × Json)) (k : String) (v : Json) :
    getKv (setKv l k v) k = some v := by
  induction l with
  | nil => simp [setKv, getKv]
  | cons hd tl ih =>
    obtain ⟨k2, v2⟩ := hd
    by_cases h : k2 = k <;> simp [setKv, getKv, h, ih]

lemma getKv_setKv_other (l : List (String × Json)) (k k2 : String) (v : Json)
    (h : k ≠ k2) : getKv (setKv l k v) k2 = getKv l k2 := by
  induction l with
  | nil => simp [setKv, getKv, h]
  | cons hd tl ih =>
    obtain ⟨k3, v3⟩ := hd
    by_cases h3 : k3 = k
    · subst h3
      simp [setKv, getKv, h]
    · by_cases h32 : k3 = k2 <;> simp [setKv, getKv, h3, h32, ih, Ne.symm h]

lemma setKv_getKv_eq (l : List (String × Json)) (k : String) (v : Json)
    (h : getKv l k = some v) : setKv l k v = l := by
  induction l with
  | nil => simp [getKv] at h
  | cons hd tl ih =>
    obtain ⟨k2, v2⟩ := hd
    by_cases h2 : k2 = k
    · subst h2
      simp [getKv] at h
      simp [setKv, h]
    · simp [getKv, h2] at h
      simp [setKv, h2, ih h]

lemma jsOrDefault_idem (x : Option Json) (d : Json) (hd : truthy d = false) :
    jsOrDefault (some (jsOrDefault x d)) d = jsOrDefault x d := by
  cases x with
  | none => simp [jsOrDefault, hd]
  | some j =>
    by_cases hj : truthy j
    · simp [jsOrDefault, hj]
    · simp [jsOrDefault, hj, hd]

/-- Reduction of migrateOne on an object value. -/
lemma migrateOne_obj (kvs : List (String × Json)) :
    migrateOne (.obj kvs) = .ok (
      if truthyOpt (getKv kvs "domains") then
        .obj (setKv (setKv kvs "rating" (jsOrDefault (getKv kvs "rating") (.num 0)))
          "ratingComment" (jsOrDefault (getKv kvs "ratingComment") (.str "")))
      else
        .obj (setKv (setKv (setKv kvs "rating" (jsOrDefault (getKv kvs "rating") (.num 0)))
          "ratingComment" (jsOrDefault (getKv kvs "ratingComment") (.str "")))
          "domains" (.obj [(".com", jsOrDefault (getKv kvs "domainStatus") (.str "unknown"))]))) := by
  by_cases h : truthyOpt (getKv kvs "domains") <;>
  simp [migrateOne, jsGetProp, spreadFields, h, Bind.bind, Except.bind]

/-- Reduction of migrateOne on any non-null value without own named fields. -/
lemma migrateOne_other (j : Json) (h1 : jsGetProp j "domains" = .ok none)
    (h2 : jsGetProp j "rating" = .ok none) (h3 : jsGetProp j "ratingComment" = .ok none)
    (h4 : jsGetProp j "domainStatus" = .ok none) :
    migrateOne j = .ok (.obj (setKv (setKv (setKv (spreadFields j) "rating" (.num 0))
      "ratingComment" (.str "")) "domains" (.obj [(".com", .str "unknown")]))) := by
  simp [migrateOne, h1, h2, h3, h4, truthyOpt, jsOrDefault, Bind.bind, Except.bind]

/-- A record produced by the with-domains branch migrates to itself. -/
lemma migrateOne_stable_withDomains (base : List (String × Json)) (x y : Option Json)
    (hdom : truthyOpt (getKv base "domains") = true) :
    migrateOne (.obj (setKv (setKv base "rating" (jsOrDefault x (.num 0)))
        "ratingComment" (jsOrDefault y (.str ""))))
      = .ok (.obj (setKv (setKv base "rating" (jsOrDefault x (.num 0)))
        "ratingComment" (jsOrDefault y (.str "")))) := by
  set kvs := setKv (setKv base "rating" (jsOrDefault x (.num 0)))
    "ratingComment" (jsOrDefault y (.str "")) with hkvs
  have hd : getKv kvs "domains" = getKv base "domains" := by
    rw [hkvs, getKv_setKv_other _ _ _ _ (by decide), getKv_setKv_other _ _ _ _ (by decide)]
  have hr : getKv kvs "rating" = some (jsOrDefault x (.num 0)) := by
    rw [hkvs, getKv_setKv_other _ _ _ _ (by decide), getKv_setKv_self]
  have hc : getKv kvs "ratingComment" = some (jsOrDefault y (.str "")) := by
    rw [hkvs, getKv_setKv_self]
  rw [migrateOne_obj, hd, hr, hc]
  rw [jsOrDefault_idem x _ (by decide), jsOrDefault_idem y _ (by decide)]
  rw [setKv_getKv_eq _ _ _ hr, setKv_getKv_eq _ _ _ hc]
  simp [hdom]

/-- A record produced by the fresh-domains branch migrates to itself. -/
lemma migrateOne_stable_newDomains (base : List (String × Json)) (x y z : Option Json) :
    migrateOne (.obj (setKv (setKv (setKv base "rating" (jsOrDefault x (.num 0)))
        "ratingComment" (jsOrDefault y (.str "")))
        "domains" (.obj [(".com", jsOrDefault z (.str "unknown"))])))
      = .ok (.obj (setKv (setKv (setKv base "rating" (jsOrDefault x (.num 0)))
        "ratingComment" (jsOrDefault y (.str "")))
        "domains" (.obj [(".com", jsOrDefault z (.str "unknown"))]))) := by
  set kvs := setKv (setKv (setKv base "rating" (jsOrDefault x (.num 0)))
    "ratingComment" (jsOrDefault y (.str "")))
    "domains" (.obj [(".com", jsOrDefault z (.str "unknown"))]) with hkvs
  have hd : getKv kvs "domains" = some (.obj [(".com", jsOrDefault z (.str "unknown"))]) := by
    rw [hkvs, getKv_setKv_self]
  have hr : getKv kvs "rating" = some (jsOrDefault x (.num 0)) := by
    rw [hkvs, getKv_setKv_other _ _ _ _ (by decide), getKv_setKv_other _ _ _ _ (by decide),
      getKv_setKv_self]
  have hc : getKv kvs "ratingComment" = some (jsOrDefault y (.str "")) := by
    rw [hkvs, getKv_setKv_other _ _ _ _ (by decide), getKv_setKv_self]
  rw [migrateOne_obj, hd, hr, hc]
  rw [jsOrDefault_idem x _ (by decide), jsOrDefault_idem y _ (by decide)]
  rw [setKv_getKv_eq _ _ _ hr, setKv_getKv_eq _ _ _ hc]
  simp [truthyOpt, truthy]

/-- migrateOldData is idempotent per record: a second pass over any
    successfully migrated record returns it unchanged. -/
lemma migrateOne_idem (j r : Json) (h : migrateOne j = .ok r) :
    migrateOne r = .ok r := by
  cases j with
  | null => simp [migrateOne, jsGetProp, Bind.bind, Except.bind] at h
  | obj kvs =>
    rw [migrateOne_obj] at h
    injection h with h
    subst h
    by_cases hdom : truthyOpt (getKv kvs "domains")
    · rw [if_pos hdom]
      exact migrateOne_stable_withDomains kvs _ _ hdom
    · rw [if_neg hdom]
      exact migrateOne_stable_newDomains kvs _ _ _
  | bool b =>
    rw [migrateOne_other (Json.bool b) rfl rfl rfl rfl] at h
    injection h with h
    subst h
    exact migrateOne_stable_newDomains _ none none none
  | num n =>
    rw [migrateOne_other (Json.num n) rfl rfl rfl rfl] at h
    injection h with h
    subst h
    exact migrateOne_stable_newDomains _ none none none
  | str s =>
    rw [migrateOne_other (Json.str s) rfl rfl rfl rfl] at h
    injection h with h
    subst h
    exact migrateOne_stable_newDomains _ none none none
  | arr xs =>
    rw [migrateOne_other (Json.arr xs) rfl rfl rfl rfl] at h
    injection h with h
    subst h
    exact migrateOne_stable_newDomains _ none none none
  | date v =>
    rw [migrateOne_other (Json.date v) rfl rfl rfl rfl] at h
    injection h with h
    subst h
    exact migrateOne_stable_newDomains _ none none none

/-- The legacy stored record carrying only a name and a single domainStatus. -/
def legacyRec (nm : String) : Json :=
  .obj [("name", .str nm), ("domainStatus", .str "taken")]

/-- The record the source migration produces from legacyRec: the claimed fields
    plus the legacy domainStatus field, which the object spread keeps. -/
def migratedRec (nm : String) : Json :=
  .obj [("name", .str nm), ("domainStatus", .str "taken"), ("rating", .num 0),
        ("ratingComment", .str ""), ("domains", .obj [(".com", .str "taken")])]

/-- C9: a legacy record with only name and domainStatus taken migrates to a
    record whose name, rating, ratingComment and domains fields are exactly the
    claimed values (the spread also keeps the legacy domainStatus field), and
    migration is idempotent on every successfully migrated record. -/
theorem C9_legacy_migration :
    (∀ nm : String,
      migrateOne (legacyRec nm) = .ok (migratedRec nm)
      ∧ jsGetProp (migratedRec nm) "name" = .ok (some (.str nm))
      ∧ jsGetProp (migratedRec nm) "rating" = .ok (some (.num 0))
      ∧ jsGetProp (migratedRec nm) "ratingComment" = .ok (some (.str ""))
      ∧ jsGetProp (migratedRec nm) "domains" = .ok (some (.obj [(".com", .str "taken")])))
    ∧ (∀ j r : Json, migrateOne j = .ok r → migrateOne r = .ok r) :=
  ⟨fun _ => ⟨rfl, rfl, rfl, rfl, rfl⟩, migrateOne_idem⟩

/-- Witness for C9: the second migration pass over the concrete migrated
    record leaves it unchanged. -/
theorem C9_legacy_migration_witness :
    migrateOne (migratedRec "CloudFlow") = .ok (migratedRec "CloudFlow") :=
  C9_legacy_migration.2 (legacyRec "CloudFlow") (migratedRec "CloudFlow") rfl
